import Mathlib

/-!
Verification development for the Predicate-Labs python SDK.

This file gives a shallow embedding, in Lean 4, of the parts of the SDK that
the verified properties talk about:

* CAPTCHA detection and the abort policy
  (`predicate/agent_runtime.py`: `_is_captcha_detected`,
  `_handle_captcha_if_needed`, `_apply_captcha_resolution`);
* the `AssertionHandle.eventually` retry loop with confidence gating,
  snapshot-limit growth and vision fallback, and `AgentRuntime.assert_`
  (`predicate/agent_runtime.py`);
* the error-handling tail of `_snapshot_via_api`
  (`sentience/backends/snapshot.py`);
* `_dedupe_key` / `merge_snapshots` (`sentience/backends/snapshot.py`);
* `FailureArtifactBuffer.persist` and `_redact_snapshot_defaults`
  (`sentience/failure_artifacts.py`);
* `required_assertions_passed` and the `verify.passed` computation of
  `emit_step_end` (`predicate/agent_runtime.py`).

Python strings are modelled as `String`, floats that are only ever compared
(confidences) as `ℚ`, and `doc_y` / limits as `ℤ` (the values the code and
its tests use are integral; only ordering and floor-division by 10 matter).
I/O (trace emission, file writes) is modelled as data returned by the
embedded functions.
-/

namespace Spec2Proof

/-! ## String helpers

Executable models of the python string operations used by the embedded code
(`in`, `.lower()`, `.strip()`, `.split()`, `" ".join`, slicing,
`.startswith`).  They are written over `List Char` so that concrete
evaluations reduce in the kernel. -/

/-- Python `s.lower()` (the inputs involved are ASCII). -/
def lowerStr (s : String) : String :=
  String.mk (s.data.map Char.toLower)

/-- Python `s.strip()`: drop leading and trailing whitespace. -/
def stripStr (s : String) : String :=
  String.mk (((s.data.dropWhile Char.isWhitespace).reverse.dropWhile
    Char.isWhitespace).reverse)

/-- Substring test on character lists: does `needle` occur inside `hay`? -/
def infixOfAux (needle : List Char) : List Char → Bool
  | [] => needle.isEmpty
  | c :: t => needle.isPrefixOf (c :: t) || infixOfAux needle t

/-- Python `k in h` for strings. -/
def strIn (k h : String) : Bool :=
  infixOfAux k.data h.data

/-- Python `s.split()` (split on whitespace runs, dropping empty tokens). -/
def wsSplit (s : String) : List String :=
  ((s.data.splitOnP Char.isWhitespace).filter (fun t => ¬ t.isEmpty)).map String.mk

/-- Python `" ".join(tokens)`. -/
def joinSpace (l : List String) : String :=
  String.mk (List.intercalate [' '] (l.map String.data))

/-- Python `s[:n]` for strings. -/
def takeStr (n : Nat) (s : String) : String :=
  String.mk (s.data.take n)

/-- Python `s.startswith(p)`. -/
def startsWithStr (s pat : String) : Bool :=
  pat.data.isPrefixOf s.data

/-! ## CAPTCHA detection (`AgentRuntime._is_captcha_detected`)

Data model of the diagnostics the detector reads
(`CaptchaEvidence` / `CaptchaDiagnostics` in `predicate/models.py`, spec §3)
and a direct translation of the detector and of the abort policy path. -/

/-- `CaptchaEvidence`: the four hit lists produced by the detector. -/
structure CaptchaEvidence where
  iframe_src_hits : List String
  url_hits : List String
  text_hits : List String
  selector_hits : List String
deriving DecidableEq, Repr

/-- `CaptchaDiagnostics`: detection flag, confidence and evidence. -/
structure CaptchaDiagnostics where
  detected : Bool
  confidence : ℚ
  evidence : Option CaptchaEvidence
deriving DecidableEq, Repr

/-- The slice of `Snapshot` that CAPTCHA handling reads:
`snapshot.diagnostics.captcha` (absent diagnostics modelled as `none`). -/
structure CaptchaSnapshot where
  url : String
  captcha : Option CaptchaDiagnostics
deriving DecidableEq, Repr

/-- The slice of `CaptchaOptions` the detector and the abort policy read.
`policy` is the literal string (`"abort"` or `"callback"`); the handler is
not modelled (the abort policy never consults it). -/
structure CaptchaOptions where
  policy : String
  min_confidence : ℚ
deriving DecidableEq, Repr

/-- The strong-phrase list of `_is_captcha_detected` (text evidence). -/
def strongTextKeys : List String :=
  ["i\x27m not a robot", "verify you are human", "human verification",
   "complete the security check", "please verify"]

/-- The strong-iframe keys of `_is_captcha_detected`. -/
def strongIframeKeys : List String :=
  ["api2/bframe", "hcaptcha", "turnstile"]

/-- The strong-selector keys of `_is_captcha_detected`. -/
def strongSelectorKeys : List String :=
  ["g-recaptcha-response", "h-captcha-response", "cf-turnstile-response",
   "recaptcha-checkbox", "hcaptcha-checkbox"]

/-- The evidence gate of `_is_captcha_detected`: `true` when the evidence is
allowed to block (the function then proceeds to the confidence check),
`false` when the code returns `False` early (selector-only evidence, or
only generic "captcha"/"recaptcha" tokens with no strong signal).  Absent
evidence skips the gate entirely, as in the source. -/
def evidenceBlocks : Option CaptchaEvidence → Bool
  | none => true
  | some ev =>
    let iframe_hits := ev.iframe_src_hits
    let url_hits := ev.url_hits
    let text_hits := ev.text_hits
    let selector_hits := ev.selector_hits
    if iframe_hits.isEmpty && url_hits.isEmpty && text_hits.isEmpty then
      false
    else
      let hits_all := iframe_hits ++ url_hits ++ text_hits ++ selector_hits
      let hits_l := hits_all.map lowerStr
      let strong_text := strongTextKeys.any (fun k => strIn k (joinSpace hits_l))
      let strong_iframe := hits_l.any (fun h => strongIframeKeys.any (fun k => strIn k h))
      let strong_selector := hits_l.any (fun h => strongSelectorKeys.any (fun k => strIn k h))
      let only_generic := !strong_text && !strong_iframe && !strong_selector &&
        hits_l.all (fun h => strIn ("captcha") h || strIn ("recaptcha") h)
      !only_generic

/-- `AgentRuntime._is_captcha_detected` (with CAPTCHA options set): the
detection flag must be set, the evidence gate must allow blocking, and the
confidence must reach `min_confidence`. -/
def is_captcha_detected (o : CaptchaOptions) (snap : CaptchaSnapshot) : Bool :=
  match snap.captcha with
  | none => false
  | some c =>
    c.detected && evidenceBlocks c.evidence && decide (o.min_confidence ≤ c.confidence)

/-- Result of CAPTCHA handling on one snapshot: the `reason_code`s of the
emitted `verification` events (kind `captcha`), in order, and the
`reason_code` of the raised `CaptchaHandlingError`, if any. -/
structure CaptchaHandleResult where
  events : List String
  raised : Option String
deriving DecidableEq, Repr

/-- `AgentRuntime._handle_captcha_if_needed` composed with
`_apply_captcha_resolution`, for options without a handler.  When nothing is
detected the snapshot flows through untouched; when the policy is
`"callback"` the missing handler raises `captcha_handler_error`; otherwise
the resolution defaults to `abort` and `_apply_captcha_resolution` emits
`captcha_policy_abort` and raises a `CaptchaHandlingError` with that
`reason_code`. -/
def handle_captcha_if_needed (o : CaptchaOptions) (snap : CaptchaSnapshot) :
    CaptchaHandleResult :=
  if is_captcha_detected o snap then
    if o.policy = "callback" then
      ⟨["captcha_detected", "captcha_handler_error"], some "captcha_handler_error"⟩
    else
      ⟨["captcha_detected", "captcha_policy_abort"], some "captcha_policy_abort"⟩
  else
    ⟨[], none⟩

/-! ## The `eventually` retry loop (`AssertionHandle.eventually`)

The loop is embedded as a structural recursion over a finite *script*: one
`AttemptEnv` per loop iteration supplying what the environment produces for
that iteration (the confidence reported by the snapshot taken at the top of
the iteration, what the predicate returns — or raises — when evaluated, and
whether `time.monotonic() >= deadline` holds at the deadline checks of that
iteration).  A run that consumes the whole script without returning yields
`result = none`; a predicate exception yields `result = some (.error msg)`;
a normal return yields `result = some (.ok b)`.

Every call to `AgentRuntime._record_outcome` is modelled as a `VRecord`;
`in_step` is the `record_in_step` argument (the record is appended to
`_assertions_this_step` exactly when it is true), and the remaining fields
mirror the record payload and the `extra` keys of the source. -/

/-- An `AssertOutcome` as returned by a predicate (`passed`, `reason`). -/
structure PredOutcome where
  passed : Bool
  reason : String
deriving DecidableEq, Repr

/-- One emitted verification record (`AgentRuntime._record_outcome`).
`reason_code` is `details["reason_code"]` (absent for plain predicate
outcomes); `snapshot_attempt` / `snapshot_limit` are the corresponding
`extra` keys when present and non-null. -/
structure VRecord where
  label : String
  passed : Bool
  required : Bool
  reason_code : Option String
  in_step : Bool
  final : Bool
  attempt : Nat
  snapshot_attempt : Option Nat
  snapshot_limit : Option Int
deriving DecidableEq, Repr

/-- Resolved `snapshot_limit_growth` configuration: `apply_on` is the
literal string from the dict (default `"only_on_fail"`), and the three
limits are the resolved integers (`start_limit` defaulting through
`snapshot_kwargs["limit"]`, the runtime options and finally 50; `step`
defaulting to `max(1, start_limit)`; `max_limit` defaulting to 500). -/
structure GrowthCfg where
  apply_on : String
  start_limit : Int
  step_size : Int
  max_limit : Int
deriving DecidableEq, Repr

/-- The arguments of one `eventually` call that the loop reads.  `vision`
is the outcome of the vision fallback when it would be invoked: `none`
models no vision provider (or one whose `supports_vision()` is false),
`some (.error e)` a fallback that raises, and `some (.ok reply)` the text
of the provider reply. -/
structure EventuallyCfg where
  label : String
  required : Bool
  min_confidence : Option ℚ
  max_snapshot_attempts : Nat
  growth : Option GrowthCfg
  plain_limit : Option Int
  vision : Option (Except String String)

deriving instance DecidableEq for Except

/-- What the environment produces for one loop iteration. -/
structure AttemptEnv where
  confidence : Option ℚ
  predicate_outcome : Except String PredOutcome
  deadline_reached : Bool
deriving DecidableEq, Repr

/-- Result of a run: all emitted records in order, and how the loop ended
(`none`: script exhausted with the loop still running). -/
structure RunResult where
  events : List VRecord
  result : Option (Except String Bool)
deriving DecidableEq, Repr

/-- `_clamp_limit`: clamp to the `SnapshotOptions` bounds `[1, 500]`. -/
def clamp_limit (n : Int) : Int :=
  if n < 1 then 1 else if n > 500 then 500 else n

/-- `_limit_for_attempt`:
`clamp(min(max_limit, start_limit + step * max(0, k - 1)))`. -/
def limit_for_attempt (g : GrowthCfg) (k : Nat) : Int :=
  clamp_limit (min g.max_limit (g.start_limit + g.step_size * max 0 ((k : Int) - 1)))

/-- The per-iteration snapshot limit: with growth configured, `apply_on =
"all"` always grows, `apply_on = "only_on_fail"` grows on the first attempt
and after a failed outcome (`last_failed` is `last_outcome is not None and
not last_outcome.passed`), any other value never grows; without growth the
caller-supplied `snapshot_kwargs` limit is used as-is. -/
def attempt_limit (cfg : EventuallyCfg) (k : Nat) (last_failed : Bool) : Option Int :=
  match cfg.growth with
  | some g =>
    let apply := if g.apply_on = "only_on_fail" then (k = 1 || last_failed)
      else decide (g.apply_on = "all")
    some (if apply then limit_for_attempt g k else clamp_limit g.start_limit)
  | none => cfg.plain_limit

/-- The confidence gate: fires when `min_confidence` is set, the snapshot
carries a numeric confidence, and it is below the threshold. -/
def gate_fires (cfg : EventuallyCfg) (env : AttemptEnv) : Bool :=
  match cfg.min_confidence, env.confidence with
  | some m, some c => decide (c < m)
  | _, _ => false

/-- One run of the `eventually` loop body over the remaining script.
`attempt` and `snapshot_attempt` are the counters before the iteration
(both 0-based here, incremented at the top as in the source), and
`last_failed` tracks whether `last_outcome` is a failed outcome. -/
def eventually_go (cfg : EventuallyCfg) :
    List AttemptEnv → Nat → Nat → Bool → RunResult
  | [], _, _, _ => ⟨[], none⟩
  | env :: rest, attempt, snap_attempt, last_failed =>
    let a := attempt + 1
    let lim := attempt_limit cfg a last_failed
    let sa := snap_attempt + 1
    if gate_fires cfg env then
      -- low-confidence branch: emit a non-final `snapshot_low_confidence`
      let interm : VRecord :=
        { label := cfg.label, passed := false, required := cfg.required
          reason_code := some "snapshot_low_confidence", in_step := false
          final := false, attempt := a, snapshot_attempt := some sa
          snapshot_limit := lim }
      if cfg.max_snapshot_attempts ≤ sa then
        match cfg.vision with
        | some (Except.ok reply) =>
          -- vision fallback: YES/NO parse of the provider reply
          let passed_v := startsWithStr (lowerStr (stripStr reply)) "yes"
          let fin : VRecord :=
            { label := cfg.label, passed := passed_v, required := cfg.required
              reason_code := some (if passed_v then "vision_fallback_pass"
                else "vision_fallback_fail")
              in_step := true, final := true, attempt := a
              snapshot_attempt := some sa, snapshot_limit := none }
          ⟨[interm, fin], some (Except.ok passed_v)⟩
        | _ =>
          -- no vision provider, or the fallback raised: final exhaustion
          let fin : VRecord :=
            { label := cfg.label, passed := false, required := cfg.required
              reason_code := some "snapshot_exhausted", in_step := true
              final := true, attempt := a, snapshot_attempt := some sa
              snapshot_limit := none }
          ⟨[interm, fin], some (Except.ok false)⟩
      else if env.deadline_reached then
        let fin : VRecord := { interm with in_step := true, final := true }
        ⟨[interm, fin], some (Except.ok false)⟩
      else
        let r := eventually_go cfg rest a sa true
        ⟨interm :: r.events, r.result⟩
    else
      match env.predicate_outcome with
      | Except.error msg =>
        -- the predicate raised before anything was recorded this iteration
        ⟨[], some (Except.error msg)⟩
      | Except.ok o =>
        let interm : VRecord :=
          { label := cfg.label, passed := o.passed, required := cfg.required
            reason_code := none, in_step := false, final := false, attempt := a
            snapshot_attempt := some sa, snapshot_limit := lim }
        if o.passed then
          let fin : VRecord :=
            { label := cfg.label, passed := true, required := cfg.required
              reason_code := none, in_step := true, final := true, attempt := a
              snapshot_attempt := none, snapshot_limit := none }
          ⟨[interm, fin], some (Except.ok true)⟩
        else if env.deadline_reached then
          let fin : VRecord :=
            { label := cfg.label, passed := false, required := cfg.required
              reason_code := none, in_step := true, final := true, attempt := a
              snapshot_attempt := none, snapshot_limit := none }
          ⟨[interm, fin], some (Except.ok false)⟩
        else
          let r := eventually_go cfg rest a sa true
          ⟨interm :: r.events, r.result⟩

/-- `AssertionHandle.eventually`: run the loop from fresh counters. -/
def run_eventually (cfg : EventuallyCfg) (script : List AttemptEnv) : RunResult :=
  eventually_go cfg script 0 0 false

/-- `AgentRuntime.assert_` (the body of `AssertionHandle.once`): evaluate
the predicate — a raised exception propagates before anything is recorded —
then record the outcome once, in the step.  Returns the outcome and the
emitted records. -/
def assert_once (pred_result : Except String PredOutcome) (label : String)
    (required : Bool) : Except String (Bool × List VRecord) :=
  match pred_result with
  | Except.error msg => Except.error msg
  | Except.ok o =>
    Except.ok (o.passed,
      [{ label := label, passed := o.passed, required := required
         reason_code := none, in_step := true, final := false, attempt := 0
         snapshot_attempt := none, snapshot_limit := none }])

/-! ## `_snapshot_via_api` error handling (`sentience/backends/snapshot.py`)

Only the tail of the function — the `try/except` around the gateway call —
decides the claims, so the gateway call itself is abstracted to its outcome
(`ok` with the merged snapshot payload, or `fail` with the raised python
exception, classified by the checks the handler performs). -/

/-- Classification of an exception raised inside the gateway `try` block.
`is_runtime_or_value_error` is `isinstance(e, (RuntimeError, ValueError))`;
`is_gateway_error` is `isinstance(e, SnapshotGatewayError)`.
`SnapshotGatewayError` is defined in `sentience/snapshot.py`; modelled from
the spec («gateway errors are typed error values preserved verbatim»,
repository convention `class CaptchaHandlingError(RuntimeError)`) as a
`RuntimeError` subclass, so `is_gateway_error → is_runtime_or_value_error`
for errors actually raised by the gateway poster. -/
structure ApiError where
  is_runtime_or_value_error : Bool
  is_gateway_error : Bool
  msg : String
deriving DecidableEq, Repr

/-- Outcome of the gateway POST + merge inside the `try` block. -/
inductive ApiCall where
  | ok (merged_payload : String)
  | fail (e : ApiError)
deriving DecidableEq, Repr

/-- What `_snapshot_via_api` does after the local raw snapshot succeeded:
either a snapshot is returned, or an exception is raised (`wrapped = true`
for the `RuntimeError("Server-side snapshot API failed: ...")` wrapper,
`wrapped = false` for a re-raise of the original error). -/
inductive ApiOutcome where
  | returned (from_api : Bool) (payload : String)
  | raised (wrapped : Bool) (e : ApiError)
deriving DecidableEq, Repr

/-- The `except` chain of `_snapshot_via_api` (lines 596–641).
`except (RuntimeError, ValueError): raise` re-raises those unchanged.  In
the generic `except Exception as e` arm, the nested
`try: ... if isinstance(e, SnapshotGatewayError): raise / except Exception:
pass` re-raises the gateway error *inside* a `try` whose own
`except Exception: pass` swallows it again, so control always reaches the
final `raise RuntimeError(f"Server-side snapshot API failed: {e}. ...")`;
the raw local result is never returned on failure. -/
def snapshot_via_api_tail (call : ApiCall) : ApiOutcome :=
  match call with
  | ApiCall.ok payload => ApiOutcome.returned true payload
  | ApiCall.fail e =>
    if e.is_runtime_or_value_error then
      ApiOutcome.raised false e
    else
      ApiOutcome.raised true e

/-- The message of the wrapping `RuntimeError`. -/
def api_wrapped_msg (e : ApiError) : String :=
  "Server-side snapshot API failed: " ++ e.msg ++
    ". Try using use_api=False to use local extension instead."

/-! ## Failure artifacts (`sentience/failure_artifacts.py`)

`FailureArtifactBuffer.persist` and `_redact_snapshot_defaults`, with the
written JSON files modelled as data.  Frames are modelled by their file
names; frame/step recording and pruning are not needed by the claims. -/

/-- One element dict of a snapshot payload.  `has_value_key` models whether
the `"value"` key is present in the dict (`model_dump` payloads always
carry it); `value = none` models a null value; `value_redacted` is absent
(`none`) unless the redactor sets it. -/
structure ElemPayload where
  input_type : Option String
  has_value_key : Bool
  value : Option String
  value_redacted : Option Bool
deriving DecidableEq, Repr

/-- A snapshot payload dict: `elements = none` models a payload whose
`"elements"` entry is missing or not a list (left untouched). -/
structure SnapPayload where
  url : String
  elements : Option (List ElemPayload)
deriving DecidableEq, Repr

/-- The sensitive input types of `_redact_snapshot_defaults`. -/
def sensitiveInputTypes : List String := ["password", "email", "tel"]

/-- The per-element redaction step: lower-case the input type (missing →
`""`), and when it is sensitive and the element has a `value` key, null the
value and set `value_redacted`. -/
def redactElem (el : ElemPayload) : ElemPayload :=
  let input_type := lowerStr (el.input_type.getD (""))
  if sensitiveInputTypes.contains input_type && el.has_value_key then
    { el with value := none, value_redacted := some true }
  else
    el

/-- `FailureArtifactBuffer._redact_snapshot_defaults`. -/
def redact_snapshot_defaults (payload : SnapPayload) : SnapPayload :=
  match payload.elements with
  | none => payload
  | some els => { payload with elements := some (els.map redactElem) }

/-- A redaction callback result (`RedactionResult`). -/
structure RedactionResult where
  snapshot : Option SnapPayload
  diagnostics : Option String
  frame_paths : Option (List String)
  drop_frames : Bool

/-- The options of the buffer that `persist` reads.  `on_before_persist`
is the callback outcome when invoked (`.error` models a raising callback). -/
structure PersistOptions where
  redact_snapshot_values : Bool
  on_before_persist : Option (Except Unit RedactionResult)
  buffer_seconds : ℚ

/-- The mutable state of a `FailureArtifactBuffer` that `persist` reads and
writes: the idempotence flag, the buffered frame file names and the steps
log (each step modelled by its recorded action string). -/
structure ArtifactBuffer where
  run_id : String
  options : PersistOptions
  frames : List String
  steps : List String
  persisted : Bool

/-- Arguments of one `persist` call. -/
structure PersistArgs where
  reason : Option String
  status : String
  snapshot : Option SnapPayload
  diagnostics : Option String
  metadata : List (String × String)

/-- The bundle directory written by a successful `persist`: the JSON files
and copied frames, plus the manifest fields the claims read. -/
structure Bundle where
  steps_json : List String
  snapshot_json : Option SnapPayload
  diagnostics_json : Option String
  copied_frames : List String
  manifest_status : String
  manifest_reason : Option String
  manifest_frame_count : Nat
  manifest_frames_dropped : Bool

/-- `FailureArtifactBuffer.persist`: returns `none` immediately when the
buffer already persisted; otherwise computes the (optionally redacted)
snapshot payload, applies the `on_before_persist` callback (a raising
callback fail-closes to `drop_frames = true`), copies frames unless
dropped, writes the JSON files and manifest, marks the buffer persisted and
returns the bundle. -/
def persist (buf : ArtifactBuffer) (args : PersistArgs) :
    ArtifactBuffer × Option Bundle :=
  if buf.persisted then
    (buf, none)
  else
    let snapshot_payload0 : Option SnapPayload :=
      match args.snapshot with
      | none => none
      | some p =>
        some (if buf.options.redact_snapshot_values then redact_snapshot_defaults p else p)
    let diagnostics_payload0 := args.diagnostics
    let frame_paths0 := buf.frames
    let state :=
      match buf.options.on_before_persist with
      | none => (snapshot_payload0, diagnostics_payload0, frame_paths0, false)
      | some (Except.error _) => (snapshot_payload0, diagnostics_payload0, frame_paths0, true)
      | some (Except.ok r) =>
        ((match r.snapshot with | none => snapshot_payload0 | some s => some s),
         (match r.diagnostics with | none => diagnostics_payload0 | some d => some d),
         r.frame_paths.getD frame_paths0,
         r.drop_frames)
    let snapshot_payload := state.1
    let diagnostics_payload := state.2.1
    let frame_paths := state.2.2.1
    let drop_frames := state.2.2.2
    let bundle : Bundle :=
      { steps_json := buf.steps
        snapshot_json := snapshot_payload
        diagnostics_json := diagnostics_payload
        copied_frames := if drop_frames then [] else frame_paths
        manifest_status := args.status
        manifest_reason := args.reason
        manifest_frame_count := if drop_frames then 0 else frame_paths.length
        manifest_frames_dropped := drop_frames }
    ({ buf with persisted := true }, some bundle)

/-! ## Snapshot merging (`sentience/backends/snapshot.py`)

`_normalize_ws`, `_dedupe_key`, `_quality_score` and `merge_snapshots`.
`doc_y` is modelled as `ℤ` (the code treats it as a float but only orders
it and floor-divides it by 10; the values in play are integral).  The
source sorts with python's stable `list.sort`; the embedding uses
`List.insertionSort`, which is also stable, with the same key ordering. -/

/-- The element fields that `_dedupe_key` / `_quality_score` /
`merge_snapshots` read. -/
structure MElem where
  id : Nat
  role : String
  text : Option String
  name : Option String
  href : Option String
  importance : Int
  doc_y : Option Int
deriving DecidableEq, Repr

/-- The snapshot fields that `merge_snapshots` reads and writes. -/
structure MSnapshot where
  url : String
  elements : List MElem
  screenshot : Option String
deriving DecidableEq, Repr

/-- `_normalize_ws`: `" ".join((text or "").split()).strip()`. -/
def normalizeWs (s : String) : String :=
  stripStr (joinSpace (wsSplit s))

/-- The dedupe keys of `_dedupe_key`, tagged as in the source tuples. -/
inductive DKey where
  | hrefKey (h : String)
  | roleName (r n : String)
  | roleTextDocy (r t : String) (b : Int)
  | roleText (r t : String)
  | roleDocy (r : String) (b : Int)
  | idKey (i : Nat)
deriving DecidableEq, Repr

/-- `_dedupe_key`. -/
def dedupe_key (el : MElem) : DKey :=
  let href := stripStr (el.href.getD (""))
  if href ≠ "" then DKey.hrefKey href
  else
    let name := normalizeWs (el.name.getD (""))
    if name ≠ "" then DKey.roleName el.role name
    else
      let text := normalizeWs (el.text.getD (""))
      if text ≠ "" then
        match el.doc_y with
        | some d => DKey.roleTextDocy el.role (takeStr 120 text) (Int.fdiv d 10)
        | none => DKey.roleText el.role (takeStr 120 text)
      else
        match el.doc_y with
        | some d => DKey.roleDocy el.role (Int.fdiv d 10)
        | none => DKey.idKey el.id

/-- `_quality_score`: `(importance, has_href, has_text, has_name, has_doc_y)`. -/
def quality_score (e : MElem) : Int × Int × Int × Int × Int :=
  (e.importance,
   if stripStr (e.href.getD ("")) ≠ "" then 1 else 0,
   if normalizeWs (e.text.getD ("")) ≠ "" then 1 else 0,
   if normalizeWs (e.name.getD ("")) ≠ "" then 1 else 0,
   if e.doc_y.isSome then 1 else 0)

/-- Python's strict lexicographic `>` on 5-tuples. -/
def tupLexGT (x y : Int × Int × Int × Int × Int) : Prop :=
  y.1 < x.1 ∨ (x.1 = y.1 ∧
    (y.2.1 < x.2.1 ∨ (x.2.1 = y.2.1 ∧
      (y.2.2.1 < x.2.2.1 ∨ (x.2.2.1 = y.2.2.1 ∧
        (y.2.2.2.1 < x.2.2.2.1 ∨ (x.2.2.2.1 = y.2.2.2.1 ∧
          y.2.2.2.2 < x.2.2.2.2)))))))

instance (x y : Int × Int × Int × Int × Int) : Decidable (tupLexGT x y) := by
  unfold tupLexGT; infer_instance

/-- `_quality_score(el) > _quality_score(prev)` in the merge loop. -/
def qGT (a b : MElem) : Bool :=
  decide (tupLexGT (quality_score a) (quality_score b))

/-- `best_by_key[k] = el` when the key is new or the new element scores
strictly higher (python dicts keep the position of an updated key). -/
def updateBest : List (DKey × MElem) → DKey → MElem → List (DKey × MElem)
  | [], k, e => [(k, e)]
  | (k0, e0) :: t, k, e =>
    if k = k0 then (k0, if qGT e e0 then e else e0) :: t
    else (k0, e0) :: updateBest t k e

/-- `first_seen_idx.setdefault(k, idx)`. -/
def updateFirstSeen : List (DKey × Nat) → DKey → Nat → List (DKey × Nat)
  | [], k, i => [(k, i)]
  | (k0, i0) :: t, k, i =>
    if k = k0 then (k0, i0) :: t else (k0, i0) :: updateFirstSeen t k i

/-- The accumulation loop of `merge_snapshots` over the flattened element
stream (`idx` counts every element seen, duplicates included). -/
def mergeScan : List MElem → List (DKey × MElem) → List (DKey × Nat) → Nat →
    List (DKey × MElem) × List (DKey × Nat)
  | [], best, fs, _ => (best, fs)
  | el :: rest, best, fs, idx =>
    let k := dedupe_key el
    mergeScan rest (updateBest best k el) (updateFirstSeen fs k idx) (idx + 1)

/-- `best_by_key.get(k)` over the association list. -/
def lookupBest (best : List (DKey × MElem)) (k : DKey) : Option MElem :=
  match best.find? (fun p => decide (p.1 = k)) with
  | some p => some p.2
  | none => none

/-- Invariant of the accumulation loop of `merge_snapshots`: every entry of
`best_by_key` is keyed by its element's dedupe key, comes from the
processed stream, and is quality-maximal among the processed elements of
its key; every processed element's key is present; and the keys are
distinct. -/
def MergeInv (processed : List MElem) (best : List (DKey × MElem)) : Prop :=
  (∀ k e, lookupBest best k = some e →
    dedupe_key e = k ∧ e ∈ processed ∧
    ∀ e2 ∈ processed, dedupe_key e2 = k → qGT e2 e = false) ∧
  (∀ e ∈ processed, (lookupBest best (dedupe_key e)).isSome = true) ∧
  (best.map Prod.fst).Nodup

/-- `first_seen_idx.get(_dedupe_key(e), 10**9)`. -/
def firstSeen (fs : List (DKey × Nat)) (k : DKey) : Nat :=
  match fs.find? (fun p => decide (p.1 = k)) with
  | some p => p.2
  | none => 10 ^ 9

/-- The `_sort_key` ordering of `merge_snapshots` as a `≤` relation:
elements with `doc_y` first, ordered by ascending `doc_y` then descending
importance (`(0, doc_y, -importance)`); elements without `doc_y` last,
ordered by first-seen index (`(1, inf, first_seen)`). -/
def mergeLE (fs : List (DKey × Nat)) (a b : MElem) : Bool :=
  match a.doc_y, b.doc_y with
  | some d1, some d2 => decide (d1 < d2 ∨ (d1 = d2 ∧ b.importance ≤ a.importance))
  | some _, none => true
  | none, some _ => false
  | none, none => decide (firstSeen fs (dedupe_key a) ≤ firstSeen fs (dedupe_key b))

/-- `merge_snapshots` (`none` models the `ValueError` on an empty list).
The merged snapshot keeps the base url and drops the screenshot. -/
def merge_snapshots (snaps : List MSnapshot) (union_limit : Option Int) :
    Option MSnapshot :=
  match snaps with
  | [] => none
  | base :: _ =>
    let els := (snaps.map (fun s => s.elements)).flatten
    let st := mergeScan els [] [] 0
    let best := st.1
    let fs := st.2
    let merged0 := best.map (fun p => p.2)
    let sorted := List.insertionSort (fun a b => mergeLE fs a b = true) merged0
    let limited :=
      match union_limit with
      | none => sorted
      | some ul => sorted.take (max 1 ul).toNat
    some { url := base.url, elements := limited, screenshot := none }

/-! ## Step-end verification flag (`AgentRuntime`)

`required_assertions_passed` and the `verify.passed` computation inside
`emit_step_end`, over the step-accumulated assertion records. -/

/-- `AgentRuntime.required_assertions_passed`: all required assertions of
the current step passed (vacuously true when there are none). -/
def required_assertions_passed (asserts : List VRecord) : Bool :=
  (asserts.filter (fun a => a.required)).all (fun a => a.passed)

/-- The `passed` flag of `verify` in `emit_step_end`:
`bool(verify_passed) if verify_passed is not None else
self.required_assertions_passed()`. -/
def emit_step_end_verify_passed (verify_passed : Option Bool)
    (asserts : List VRecord) : Bool :=
  match verify_passed with
  | some b => b
  | none => required_assertions_passed asserts

/-! ## Concrete instances

Concrete inputs used by counterexamples and witnesses, taken from the
spec's end-to-end scenarios and the repository's unit tests. -/

/-- Evidence carrying only the reCAPTCHA *anchor* iframe hit (spec
scenario 3). -/
def anchor_evidence : CaptchaEvidence :=
  { iframe_src_hits := ["https://www.google.com/recaptcha/api2/anchor"]
    url_hits := [], text_hits := [], selector_hits := [] }

/-- Snapshot whose diagnostics carry `captcha.detected = true`,
`confidence = 0.9` and the anchor-only evidence. -/
def anchor_snapshot : CaptchaSnapshot :=
  { url := "https://example.com"
    captcha := some
      { detected := true, confidence := mkRat 9 10, evidence := some anchor_evidence } }

/-- The same evidence with the *bframe* (interactive challenge) iframe hit
instead of the anchor. -/
def bframe_evidence : CaptchaEvidence :=
  { iframe_src_hits := ["https://www.google.com/recaptcha/api2/bframe"]
    url_hits := [], text_hits := [], selector_hits := [] }

/-- Snapshot with detected CAPTCHA, confidence 0.9 and bframe evidence. -/
def bframe_snapshot : CaptchaSnapshot :=
  { url := "https://example.com"
    captcha := some
      { detected := true, confidence := mkRat 9 10, evidence := some bframe_evidence } }

/-- A transport failure of the gateway POST (e.g. a connection timeout):
neither a `RuntimeError`/`ValueError` nor a `SnapshotGatewayError`. -/
def transport_error : ApiError :=
  { is_runtime_or_value_error := false, is_gateway_error := false
    msg := "connection timed out" }

/-- A structured gateway error (a `RuntimeError` subclass). -/
def gateway_error : ApiError :=
  { is_runtime_or_value_error := true, is_gateway_error := true
    msg := "gateway returned 402" }

/-- `eventually` configuration of the min-confidence exhaustion scenario
(`min_confidence = 0.7`, `max_snapshot_attempts = 2`, no vision provider). -/
def exhaust_cfg : EventuallyCfg :=
  { label := "min_confidence_gate", required := false
    min_confidence := some (mkRat 7 10), max_snapshot_attempts := 2
    growth := none, plain_limit := none, vision := none }

/-- One loop iteration whose snapshot reports confidence 0.1, before the
deadline (the predicate would pass, as in the regression test). -/
def low_conf_env : AttemptEnv :=
  { confidence := some (mkRat 1 10)
    predicate_outcome := Except.ok { passed := true, reason := "would pass" }
    deadline_reached := false }

/-- `eventually` configuration without confidence gating or growth. -/
def plain_cfg : EventuallyCfg :=
  { label := "eventually_done", required := false, min_confidence := none
    max_snapshot_attempts := 3, growth := none, plain_limit := none
    vision := none }

/-- An iteration whose predicate raises `boom`. -/
def raising_env : AttemptEnv :=
  { confidence := none, predicate_outcome := Except.error "boom"
    deadline_reached := false }

/-- An iteration whose predicate fails, before the deadline. -/
def failing_env : AttemptEnv :=
  { confidence := none
    predicate_outcome := Except.ok { passed := false, reason := "not done" }
    deadline_reached := false }

/-- An iteration whose predicate passes. -/
def passing_env : AttemptEnv :=
  { confidence := none
    predicate_outcome := Except.ok { passed := true, reason := "" }
    deadline_reached := false }

/-- Growth configuration `{start_limit := 10, step := 5, max_limit := 100,
apply_on := "only_on_fail"}`. -/
def growth_cfg : GrowthCfg :=
  { apply_on := "only_on_fail", start_limit := 10, step_size := 5
    max_limit := 100 }

/-- `eventually` configuration with snapshot-limit growth. -/
def growth_run_cfg : EventuallyCfg :=
  { label := "growth", required := false, min_confidence := none
    max_snapshot_attempts := 3, growth := some growth_cfg, plain_limit := none
    vision := none }

/-- The intermediate record emitted on attempt 2 of a failing run under
`growth_run_cfg`: the grown snapshot limit is `10 + 5 * (2 - 1) = 15`. -/
def growth_attempt2_record : VRecord :=
  { label := "growth", passed := false, required := false, reason_code := none
    in_step := false, final := false, attempt := 2, snapshot_attempt := some 2
    snapshot_limit := some 15 }

/-- Test elements of the merge scenario (spec scenario 6 /
`test_snapshot_sampling_merge.py`): `href=a` with importance 120. -/
def elem_a1 : MElem :=
  { id := 1, role := "link", text := some "A", name := none
    href := some "https://example.com/a", importance := 120, doc_y := some 10 }

/-- `href=b`, importance 110, `doc_y = 20`. -/
def elem_b : MElem :=
  { id := 2, role := "link", text := some "B", name := none
    href := some "https://example.com/b", importance := 110, doc_y := some 20 }

/-- The duplicate of `href=a` with higher importance 220. -/
def elem_a2 : MElem :=
  { id := 9, role := "link", text := some "A", name := none
    href := some "https://example.com/a", importance := 220, doc_y := some 10 }

/-- `href=c`, importance 105, `doc_y = 30`. -/
def elem_c : MElem :=
  { id := 3, role := "link", text := some "C", name := none
    href := some "https://example.com/c", importance := 105, doc_y := some 30 }

/-- First sampled snapshot of the merge scenario. -/
def merge_snap1 : MSnapshot :=
  { url := "https://example.com", elements := [elem_a1, elem_b]
    screenshot := some "data:fake" }

/-- Second sampled snapshot of the merge scenario. -/
def merge_snap2 : MSnapshot :=
  { url := "https://example.com", elements := [elem_a2, elem_c]
    screenshot := none }

/-- A fresh artifact buffer with one frame and one recorded step. -/
def fresh_buffer : ArtifactBuffer :=
  { run_id := "run-2"
    options := { redact_snapshot_values := true, on_before_persist := none
                 buffer_seconds := 15 }
    frames := ["frame_10000.png"], steps := ["CLICK"], persisted := false }

/-- A password element payload carrying a secret value. -/
def password_elem : ElemPayload :=
  { input_type := some "password", has_value_key := true
    value := some "secret", value_redacted := none }

/-- An email element payload carrying a value. -/
def email_elem : ElemPayload :=
  { input_type := some "email", has_value_key := true
    value := some "user@example.com", value_redacted := none }

/-- A plain-text element payload carrying a value. -/
def text_elem : ElemPayload :=
  { input_type := some "text", has_value_key := true
    value := some "hello", value_redacted := none }

/-- The element list of the redaction scenario
(`test_failure_artifacts.py::test_persist_writes_manifest_and_steps`). -/
def secret_elements : List ElemPayload := [password_elem, email_elem, text_elem]

/-- A snapshot payload with password, email and plain-text elements. -/
def secret_payload : SnapPayload :=
  { url := "https://example.com", elements := some secret_elements }

/-- `persist` arguments of the failure scenario. -/
def persist_args : PersistArgs :=
  { reason := some "assert_failed", status := "failure"
    snapshot := some secret_payload, diagnostics := some "diag"
    metadata := [("backend", "MockBackend")] }

/-! ## Theorems -/

/-- Helper: the anchor-only evidence is classified passive (only generic
`captcha`/`recaptcha` tokens, no strong signal), so the evidence gate
returns false. -/
theorem anchor_evidence_not_blocking : evidenceBlocks (some anchor_evidence) = false := by
  decide

/-- Helper: the bframe evidence carries a strong iframe hit, so the
evidence gate allows blocking. -/
theorem bframe_evidence_blocking : evidenceBlocks (some bframe_evidence) = true := by
  decide

/-- C1 (counterexample): for the snapshot of the claim — `detected = true`,
`confidence = 0.9`, evidence consisting only of the reCAPTCHA *anchor*
iframe hit — with policy `abort` and `min_confidence = 0.7 ≤ 0.9`, the
runtime does *not* treat the detection as blocking: `_is_captcha_detected`
returns false, so no `captcha_detected` event is emitted and no CAPTCHA
error is raised. -/
theorem captcha_anchor_only_is_not_blocking :
    is_captcha_detected { policy := "abort", min_confidence := mkRat 7 10 }
      anchor_snapshot = false ∧
    handle_captcha_if_needed { policy := "abort", min_confidence := mkRat 7 10 }
      anchor_snapshot = { events := [], raised := none } := by
  constructor <;> decide

/-- C1 (amended): for a snapshot with `detected = true`, `confidence = 0.9`
and *strong* iframe evidence (`api2/bframe`), any abort-policy options with
`min_confidence ≤ 0.9` treat the detection as blocking: processing emits
`captcha_detected` followed by `captcha_policy_abort` and raises a CAPTCHA
error whose `reason_code` is `captcha_policy_abort`. -/
theorem captcha_strong_iframe_abort (mc : ℚ) (hmc : mc ≤ mkRat 9 10) :
    handle_captcha_if_needed { policy := "abort", min_confidence := mc }
      bframe_snapshot =
      { events := ["captcha_detected", "captcha_policy_abort"]
        raised := some "captcha_policy_abort" } := by
  have hdet : is_captcha_detected { policy := "abort", min_confidence := mc }
      bframe_snapshot = true := by
    simp only [is_captcha_detected, bframe_snapshot, bframe_evidence_blocking,
      Bool.true_and, Bool.and_eq_true, decide_eq_true_eq]
    exact hmc
  simp [handle_captcha_if_needed, hdet]

/-- C1 (witness): the amended theorem at `min_confidence = 0.7`. -/
theorem captcha_strong_iframe_abort_witness :
    handle_captcha_if_needed { policy := "abort", min_confidence := mkRat 7 10 }
      bframe_snapshot =
      { events := ["captcha_detected", "captcha_policy_abort"]
        raised := some "captcha_policy_abort" } :=
  captcha_strong_iframe_abort (mkRat 7 10) (by decide)

/-- C3: in `_snapshot_via_api`, a gateway-call failure that is not a
structured gateway error (here a transport error) does *not* fall through
to the raw local snapshot: the function raises a wrapping `RuntimeError`.
A structured gateway error (a `RuntimeError` subclass) is re-raised
unchanged by the `except (RuntimeError, ValueError)` clause. -/
theorem snapshot_api_transport_error_raises :
    snapshot_via_api_tail (ApiCall.fail transport_error) =
      ApiOutcome.raised true transport_error ∧
    snapshot_via_api_tail (ApiCall.fail gateway_error) =
      ApiOutcome.raised false gateway_error ∧
    api_wrapped_msg transport_error =
      "Server-side snapshot API failed: connection timed out. Try using use_api=False to use local extension instead." := by
  exact ⟨rfl, rfl, rfl⟩

/-- C10: a step in which no accumulated assertion is required (including a
step with no assertions at all) has `required_assertions_passed() = true`,
and `emit_step_end` called without an explicit `verify_passed` reports
`verify.passed = true`. -/
theorem no_required_assertions_verify_passes (asserts : List VRecord)
    (h : ∀ a ∈ asserts, a.required = false) :
    required_assertions_passed asserts = true ∧
    emit_step_end_verify_passed none asserts = true := by
  have hfilter : asserts.filter (fun a => a.required) = [] := by
    rw [List.filter_eq_nil_iff]
    intro a ha
    simp [h a ha]
  constructor
  · simp [required_assertions_passed, hfilter]
  · simp [emit_step_end_verify_passed, required_assertions_passed, hfilter]

/-- C10 (witness): the empty step. -/
theorem no_required_assertions_verify_passes_witness :
    required_assertions_passed [] = true ∧
    emit_step_end_verify_passed none [] = true :=
  no_required_assertions_verify_passes [] (by intro a ha; cases ha)

/-- Helper: a run of the `eventually` loop that ends with a propagating
predicate exception accumulates nothing into the step (no emitted record
has `record_in_step = true`). -/
theorem eventually_go_error_filter (cfg : EventuallyCfg) (msg : String) :
    ∀ (script : List AttemptEnv) (a sa : Nat) (lf : Bool),
      (eventually_go cfg script a sa lf).result = some (Except.error msg) →
      (eventually_go cfg script a sa lf).events.filter (fun r => r.in_step) = [] := by
  intro script
  induction script with
  | nil => intro a sa lf h; simp [eventually_go] at h
  | cons env rest ih =>
    intro a sa lf h
    by_cases hg : gate_fires cfg env = true
    · by_cases hmax : cfg.max_snapshot_attempts ≤ sa + 1
      · match hv : cfg.vision with
        | some (Except.ok reply) => simp [eventually_go, hg, hmax, hv] at h
        | some (Except.error e) => simp [eventually_go, hg, hmax, hv] at h
        | none => simp [eventually_go, hg, hmax, hv] at h
      · by_cases hdl : env.deadline_reached = true
        · simp [eventually_go, hg, hmax, hdl] at h
        · simp only [eventually_go, hg, hmax, hdl] at h ⊢
          simp only [if_true, if_false, List.filter] at h ⊢
          simp [ih (a + 1) (sa + 1) true (by simpa using h)]
    · match hp : env.predicate_outcome with
      | Except.error m =>
        simp [eventually_go, hg, hp]
      | Except.ok o =>
        by_cases hpass : o.passed = true
        · simp [eventually_go, hg, hp, hpass] at h
        · by_cases hdl : env.deadline_reached = true
          · simp [eventually_go, hg, hp, hpass, hdl] at h
          · simp only [eventually_go, hg, hp, hpass, hdl] at h ⊢
            simp only [if_true, if_false, List.filter] at h ⊢
            simp [ih (a + 1) (sa + 1) true (by simpa using h)]

/-- C4 (counterexample): a predicate that raises `boom` is *not* converted
to a `passed = false` outcome — both `assert_` (`once`) and `eventually`
let the exception propagate to the caller, recording nothing. -/
theorem predicate_exception_propagates_counterexample :
    assert_once (Except.error "boom") "pred" false = Except.error "boom" ∧
    run_eventually plain_cfg [raising_env] =
      { events := [], result := some (Except.error "boom") } := by
  constructor <;> rfl

/-- C4 (amended): for every predicate that raises an exception when
evaluated, `once()` (equivalently `assert_`) propagates the exception to
the caller before recording any outcome, and a `eventually` run that ends
with a predicate exception likewise propagates it with no assertion
accumulated into the step. -/
theorem predicate_exception_propagates :
    (∀ (msg label : String) (required : Bool),
      assert_once (Except.error msg) label required = Except.error msg) ∧
    (∀ (cfg : EventuallyCfg) (script : List AttemptEnv) (msg : String),
      (run_eventually cfg script).result = some (Except.error msg) →
      (run_eventually cfg script).events.filter (fun r => r.in_step) = []) := by
  constructor
  · intro msg label required
    rfl
  · intro cfg script msg h
    exact eventually_go_error_filter cfg msg script 0 0 false h

/-- C4 (witness): the amended theorem at the raising predicate `boom`. -/
theorem predicate_exception_propagates_witness :
    assert_once (Except.error "boom") "lbl" true = Except.error "boom" ∧
    (run_eventually plain_cfg [failing_env, raising_env]).events.filter
      (fun r => r.in_step) = [] :=
  ⟨predicate_exception_propagates.1 "boom" "lbl" true,
   predicate_exception_propagates.2 plain_cfg [failing_env, raising_env] "boom"
     (by decide)⟩

/-- Helper: a run of the `eventually` loop that returns a boolean
accumulates exactly one record into the step. -/
theorem eventually_go_ok_filter (cfg : EventuallyCfg) (b : Bool) :
    ∀ (script : List AttemptEnv) (a sa : Nat) (lf : Bool),
      (eventually_go cfg script a sa lf).result = some (Except.ok b) →
      ((eventually_go cfg script a sa lf).events.filter
        (fun r => r.in_step)).length = 1 := by
  intro script
  induction script with
  | nil => intro a sa lf h; simp [eventually_go] at h
  | cons env rest ih =>
    intro a sa lf h
    by_cases hg : gate_fires cfg env = true
    · by_cases hmax : cfg.max_snapshot_attempts ≤ sa + 1
      · match hv : cfg.vision with
        | some (Except.ok reply) => simp [eventually_go, hg, hmax, hv]
        | some (Except.error e) => simp [eventually_go, hg, hmax, hv]
        | none => simp [eventually_go, hg, hmax, hv]
      · by_cases hdl : env.deadline_reached = true
        · simp [eventually_go, hg, hmax, hdl]
        · simp only [eventually_go, hg, hmax, hdl] at h ⊢
          simp only [if_true, if_false, List.filter] at h ⊢
          simp [ih (a + 1) (sa + 1) true (by simpa using h)]
    · match hp : env.predicate_outcome with
      | Except.error m =>
        simp [eventually_go, hg, hp] at h
      | Except.ok o =>
        by_cases hpass : o.passed = true
        · simp [eventually_go, hg, hp, hpass]
        · by_cases hdl : env.deadline_reached = true
          · simp [eventually_go, hg, hp, hpass, hdl]
          · simp only [eventually_go, hg, hp, hpass, hdl] at h ⊢
            simp only [if_true, if_false, List.filter] at h ⊢
            simp [ih (a + 1) (sa + 1) true (by simpa using h)]

/-- Helper: every record emitted by the `eventually` loop has
`record_in_step = true` exactly when it is a final record. -/
theorem eventually_go_instep_iff_final (cfg : EventuallyCfg) :
    ∀ (script : List AttemptEnv) (a sa : Nat) (lf : Bool),
      ∀ r ∈ (eventually_go cfg script a sa lf).events, r.in_step = r.final := by
  intro script
  induction script with
  | nil => intro a sa lf r hr; simp [eventually_go] at hr
  | cons env rest ih =>
    intro a sa lf r hr
    by_cases hg : gate_fires cfg env = true
    · by_cases hmax : cfg.max_snapshot_attempts ≤ sa + 1
      · match hv : cfg.vision with
        | some (Except.ok reply) =>
          simp [eventually_go, hg, hmax, hv] at hr
          rcases hr with rfl | rfl <;> rfl
        | some (Except.error e) =>
          simp [eventually_go, hg, hmax, hv] at hr
          rcases hr with rfl | rfl <;> rfl
        | none =>
          simp [eventually_go, hg, hmax, hv] at hr
          rcases hr with rfl | rfl <;> rfl
      · by_cases hdl : env.deadline_reached = true
        · simp [eventually_go, hg, hmax, hdl] at hr
          rcases hr with rfl | rfl <;> rfl
        · simp [eventually_go, hg, hmax, hdl] at hr
          rcases hr with rfl | hr
          · rfl
          · exact ih (a + 1) (sa + 1) true r hr
    · match hp : env.predicate_outcome with
      | Except.error m =>
        simp [eventually_go, hg, hp] at hr
      | Except.ok o =>
        by_cases hpass : o.passed = true
        · simp [eventually_go, hg, hp, hpass] at hr
          rcases hr with rfl | rfl <;> rfl
        · by_cases hdl : env.deadline_reached = true
          · simp [eventually_go, hg, hp, hpass, hdl] at hr
            rcases hr with rfl | rfl <;> rfl
          · simp [eventually_go, hg, hp, hpass, hdl] at hr
            rcases hr with rfl | hr
            · rfl
            · exact ih (a + 1) (sa + 1) true r hr

/-- C5: every `eventually` run that completes with a boolean outcome
accumulates exactly one assertion record into the step — the final one —
while every other emitted record is an intermediate (non-final) attempt
event that is not accumulated. -/
theorem eventually_single_final_accumulated (cfg : EventuallyCfg)
    (script : List AttemptEnv) (b : Bool)
    (h : (run_eventually cfg script).result = some (Except.ok b)) :
    ((run_eventually cfg script).events.filter (fun r => r.in_step)).length = 1 ∧
    (∀ r ∈ (run_eventually cfg script).events, r.in_step = r.final) := by
  exact ⟨eventually_go_ok_filter cfg b script 0 0 false h,
    fun r hr => eventually_go_instep_iff_final cfg script 0 0 false r hr⟩

/-- C5 (witness): a fail-then-pass run accumulates exactly one record. -/
theorem eventually_single_final_accumulated_witness :
    ((run_eventually plain_cfg [failing_env, passing_env]).events.filter
      (fun r => r.in_step)).length = 1 :=
  (eventually_single_final_accumulated plain_cfg [failing_env, passing_env]
    true (by decide)).1

/-- Helper: with confidence gating active, no vision provider, every
snapshot below the threshold and the deadline not reached, the loop runs
the snapshot-attempt counter up to `max_snapshot_attempts` and ends with a
final `snapshot_exhausted` outcome: it returns `false` and the single
accumulated record carries `reason_code = "snapshot_exhausted"`. -/
theorem eventually_go_exhausts (cfg : EventuallyCfg) (m : ℚ)
    (hm : cfg.min_confidence = some m) (hv : cfg.vision = none) :
    ∀ (script : List AttemptEnv) (a sa : Nat) (lf : Bool),
      (∀ env ∈ script, ∃ c, env.confidence = some c ∧ c < m) →
      (∀ env ∈ script, env.deadline_reached = false) →
      sa < cfg.max_snapshot_attempts →
      cfg.max_snapshot_attempts ≤ sa + script.length →
      (eventually_go cfg script a sa lf).result = some (Except.ok false) ∧
      ((eventually_go cfg script a sa lf).events.filter
        (fun r => r.in_step)).map (fun r => r.reason_code) =
        [some "snapshot_exhausted"] := by
  intro script
  induction script with
  | nil =>
    intro a sa lf _ _ hlt hle
    simp at hle
    omega
  | cons env rest ih =>
    intro a sa lf hconf hdl hlt hle
    obtain ⟨c, hc, hcm⟩ := hconf env (List.mem_cons_self env rest)
    have hg : gate_fires cfg env = true := by
      simp [gate_fires, hm, hc, hcm]
    have hdl1 : env.deadline_reached = false := hdl env (List.mem_cons_self env rest)
    by_cases hmax : cfg.max_snapshot_attempts ≤ sa + 1
    · simp [eventually_go, hg, hmax, hv]
    · have hrec := ih (a + 1) (sa + 1) true
        (fun e he => hconf e (List.mem_cons_of_mem env he))
        (fun e he => hdl e (List.mem_cons_of_mem env he))
        (by omega) (by simp at hle ⊢; omega)
      simp only [eventually_go, hg, hmax, hdl1] at hrec ⊢
      simp only [if_true, if_false, Bool.false_eq_true, List.filter] at hrec ⊢
      simpa using hrec

/-- C2: for every `eventually` run with `min_confidence` set and no vision
provider, if every snapshot of the script reports a confidence below the
threshold and the snapshot-attempt counter reaches `max_snapshot_attempts`
before the deadline, the run returns `false` and the single assertion
accumulated into the step has `details.reason_code = "snapshot_exhausted"`. -/
theorem eventually_min_confidence_exhaustion (cfg : EventuallyCfg)
    (script : List AttemptEnv) (m : ℚ)
    (hm : cfg.min_confidence = some m) (hv : cfg.vision = none)
    (hconf : ∀ env ∈ script, ∃ c, env.confidence = some c ∧ c < m)
    (hdl : ∀ env ∈ script, env.deadline_reached = false)
    (hmax1 : 1 ≤ cfg.max_snapshot_attempts)
    (hlen : cfg.max_snapshot_attempts ≤ script.length) :
    (run_eventually cfg script).result = some (Except.ok false) ∧
    ((run_eventually cfg script).events.filter (fun r => r.in_step)).map
      (fun r => r.reason_code) = [some "snapshot_exhausted"] :=
  eventually_go_exhausts cfg m hm hv script 0 0 false hconf hdl
    (by omega) (by omega)

/-- C2 (witness): two consecutive snapshots of confidence 0.1 with
`min_confidence = 0.7` and `max_snapshot_attempts = 2` return `false` with
the `snapshot_exhausted` reason code. -/
theorem eventually_min_confidence_exhaustion_witness :
    (run_eventually exhaust_cfg [low_conf_env, low_conf_env]).result =
      some (Except.ok false) ∧
    ((run_eventually exhaust_cfg [low_conf_env, low_conf_env]).events.filter
      (fun r => r.in_step)).map (fun r => r.reason_code) =
      [some "snapshot_exhausted"] :=
  eventually_min_confidence_exhaustion exhaust_cfg [low_conf_env, low_conf_env]
    (mkRat 7 10) rfl rfl
    (by
      intro env henv
      simp only [List.mem_cons, List.mem_singleton, List.not_mem_nil,
        or_false] at henv
      rcases henv with rfl | rfl <;> exact ⟨mkRat 1 10, rfl, by decide⟩)
    (by
      intro env henv
      simp only [List.mem_cons, List.mem_singleton, List.not_mem_nil,
        or_false] at henv
      rcases henv with rfl | rfl <;> rfl)
    (by decide) (by decide)

/-- Helper: under a growth configuration with `apply_on` equal to
`"only_on_fail"` or `"all"`, every emитted record of the loop stems from a
1-based attempt and, whenever it carries a snapshot limit, that limit is
`_limit_for_attempt` of its attempt number (under `only_on_fail` the growth
applies at every attempt because attempt 1 always applies and every later
attempt follows a failed outcome). -/
theorem eventually_go_growth_limit (cfg : EventuallyCfg) (g : GrowthCfg)
    (hg : cfg.growth = some g)
    (happ : g.apply_on = "only_on_fail" ∨ g.apply_on = "all") :
    ∀ (script : List AttemptEnv) (a sa : Nat) (lf : Bool),
      (a = 0 ∨ lf = true) →
      ∀ r ∈ (eventually_go cfg script a sa lf).events,
        1 ≤ r.attempt ∧
        ∀ L, r.snapshot_limit = some L → L = limit_for_attempt g r.attempt := by
  intro script
  induction script with
  | nil => intro a sa lf _ r hr; simp [eventually_go] at hr
  | cons env rest ih =>
    intro a sa lf hinv r hr
    have hlim : attempt_limit cfg (a + 1) lf = some (limit_for_attempt g (a + 1)) := by
      rcases happ with h1 | h1
      · rcases hinv with rfl | rfl <;> simp [attempt_limit, hg, h1]
      · simp [attempt_limit, hg, h1]
    by_cases hgf : gate_fires cfg env = true
    · by_cases hmax : cfg.max_snapshot_attempts ≤ sa + 1
      · match hv : cfg.vision with
        | some (Except.ok reply) =>
          simp [eventually_go, hgf, hmax, hv, hlim] at hr
          rcases hr with rfl | rfl
          · exact ⟨Nat.le_add_left 1 a, fun L hL => (Option.some.inj hL).symm⟩
          · exact ⟨Nat.le_add_left 1 a, fun L hL => Option.noConfusion hL⟩
        | some (Except.error e) =>
          simp [eventually_go, hgf, hmax, hv, hlim] at hr
          rcases hr with rfl | rfl
          · exact ⟨Nat.le_add_left 1 a, fun L hL => (Option.some.inj hL).symm⟩
          · exact ⟨Nat.le_add_left 1 a, fun L hL => Option.noConfusion hL⟩
        | none =>
          simp [eventually_go, hgf, hmax, hv, hlim] at hr
          rcases hr with rfl | rfl
          · exact ⟨Nat.le_add_left 1 a, fun L hL => (Option.some.inj hL).symm⟩
          · exact ⟨Nat.le_add_left 1 a, fun L hL => Option.noConfusion hL⟩
      · by_cases hdl : env.deadline_reached = true
        · simp [eventually_go, hgf, hmax, hdl, hlim] at hr
          rcases hr with rfl | rfl <;>
            exact ⟨Nat.le_add_left 1 a, fun L hL => (Option.some.inj hL).symm⟩
        · simp [eventually_go, hgf, hmax, hdl, hlim] at hr
          rcases hr with rfl | hr
          · exact ⟨Nat.le_add_left 1 a, fun L hL => (Option.some.inj hL).symm⟩
          · exact ih (a + 1) (sa + 1) true (Or.inr rfl) r hr
    · match hp : env.predicate_outcome with
      | Except.error msg =>
        simp [eventually_go, hgf, hp] at hr
      | Except.ok o =>
        by_cases hpass : o.passed = true
        · simp [eventually_go, hgf, hp, hpass, hlim] at hr
          rcases hr with rfl | rfl
          · exact ⟨Nat.le_add_left 1 a, fun L hL => (Option.some.inj hL).symm⟩
          · exact ⟨Nat.le_add_left 1 a, fun L hL => Option.noConfusion hL⟩
        · by_cases hdl : env.deadline_reached = true
          · simp [eventually_go, hgf, hp, hpass, hdl, hlim] at hr
            rcases hr with rfl | rfl
            · exact ⟨Nat.le_add_left 1 a, fun L hL => (Option.some.inj hL).symm⟩
            · exact ⟨Nat.le_add_left 1 a, fun L hL => Option.noConfusion hL⟩
          · simp [eventually_go, hgf, hp, hpass, hdl, hlim] at hr
            rcases hr with rfl | hr
            · exact ⟨Nat.le_add_left 1 a, fun L hL => (Option.some.inj hL).symm⟩
            · exact ih (a + 1) (sa + 1) true (Or.inr rfl) r hr

/-- C6: under a `snapshot_limit_growth` configuration, every snapshot limit
used on a (1-based) attempt `k` where growth applies equals
`min(max_limit, start_limit + step * (k - 1))` clamped to `[1, 500]`; under
`apply_on = "only_on_fail"`, attempt 1 — the only attempt up to and
including the first failing attempt — uses `start_limit` (provided
`start_limit` respects `1 ≤ start_limit ≤ max_limit` and the 500 cap). -/
theorem eventually_snapshot_limit_growth_formula (cfg : EventuallyCfg)
    (g : GrowthCfg) (script : List AttemptEnv) (hg : cfg.growth = some g)
    (happ : g.apply_on = "only_on_fail" ∨ g.apply_on = "all") :
    (∀ r ∈ (run_eventually cfg script).events, ∀ L, r.snapshot_limit = some L →
      L = clamp_limit (min g.max_limit
        (g.start_limit + g.step_size * ((r.attempt : Int) - 1)))) ∧
    (∀ r ∈ (run_eventually cfg script).events, r.attempt = 1 →
      ∀ L, r.snapshot_limit = some L →
        1 ≤ g.start_limit → g.start_limit ≤ g.max_limit →
        g.start_limit ≤ 500 → L = g.start_limit) := by
  have base := eventually_go_growth_limit cfg g hg happ script 0 0 false (Or.inl rfl)
  constructor
  · intro r hr L hL
    obtain ⟨h1, h2⟩ := base r hr
    have := h2 L hL
    rw [this]
    unfold limit_for_attempt
    have hmax0 : max (0 : Int) ((r.attempt : Int) - 1) = (r.attempt : Int) - 1 := by
      omega
    rw [hmax0]
  · intro r hr hatt L hL hs1 hsm hs500
    obtain ⟨_, h2⟩ := base r hr
    have := h2 L hL
    rw [this, hatt]
    unfold limit_for_attempt clamp_limit
    simp only [Nat.cast_one]
    have hmax0 : max (0 : Int) (1 - 1) = 0 := by omega
    rw [hmax0]
    have hmin : min g.max_limit (g.start_limit + g.step_size * 0) = g.start_limit := by
      omega
    rw [hmin]
    omega

/-- C6 (witness): the attempt-2 intermediate record of a failing run with
`{start_limit := 10, step := 5, max_limit := 100}` carries limit
`15 = clamp(min(100, 10 + 5 * (2 - 1)))`. -/
theorem eventually_snapshot_limit_growth_witness :
    growth_attempt2_record ∈
      (run_eventually growth_run_cfg [failing_env, failing_env]).events ∧
    (15 : Int) = clamp_limit (min growth_cfg.max_limit
      (growth_cfg.start_limit +
        growth_cfg.step_size * ((growth_attempt2_record.attempt : Int) - 1))) :=
  ⟨by decide,
   (eventually_snapshot_limit_growth_formula growth_run_cfg growth_cfg
      [failing_env, failing_env] rfl (Or.inl rfl)).1
    growth_attempt2_record (by decide) 15 (by decide)⟩

/-- Helper: `persist` on an already-persisted buffer is the identity and
returns `None` (the guard at the top of the function). -/
theorem persist_already_persisted (buf : ArtifactBuffer) (a : PersistArgs)
    (h : buf.persisted = true) : persist buf a = (buf, none) := by
  simp [persist, h]

/-- C8: artifact persistence is idempotent.  On a buffer that has not yet
persisted, the first `persist` call returns a bundle and flips the
`_persisted` flag; from then on every `persist` call — with any arguments —
returns `None`, creates no bundle and leaves the buffer unchanged. -/
theorem persist_idempotent (buf : ArtifactBuffer) (a1 : PersistArgs)
    (h : buf.persisted = false) :
    (persist buf a1).2.isSome = true ∧
    (persist buf a1).1.persisted = true ∧
    (∀ a : PersistArgs,
      (persist (persist buf a1).1 a).2 = none ∧
      (persist (persist buf a1).1 a).1 = (persist buf a1).1) := by
  refine ⟨?_, ?_, ?_⟩
  · simp [persist, h]
  · simp [persist, h]
  · intro a
    have h1 : (persist buf a1).1.persisted = true := by simp [persist, h]
    rw [persist_already_persisted ((persist buf a1).1) a h1]
    exact ⟨rfl, rfl⟩

/-- C8 (witness): persisting `fresh_buffer` twice yields one bundle then
`None`. -/
theorem persist_idempotent_witness :
    (persist fresh_buffer persist_args).2.isSome = true ∧
    (persist (persist fresh_buffer persist_args).1 persist_args).2 = none :=
  ⟨(persist_idempotent fresh_buffer persist_args rfl).1,
   ((persist_idempotent fresh_buffer persist_args rfl).2.2 persist_args).1⟩

/-- C9: with `redact_snapshot_values = true` and no redaction callback, the
written snapshot payload is the element-wise redaction of the input
payload; under it every element whose `input_type` is `password`, `email`
or `tel` (case-insensitively) and which carries a `value` key has its value
nulled and `value_redacted = true`, while every element with any other
`input_type` is kept unchanged. -/
theorem persist_redacts_sensitive_values (buf : ArtifactBuffer)
    (args : PersistArgs) (p : SnapPayload) (els : List ElemPayload)
    (hpers : buf.persisted = false)
    (hredact : buf.options.redact_snapshot_values = true)
    (hcb : buf.options.on_before_persist = none)
    (hsnap : args.snapshot = some p)
    (hels : p.elements = some els) :
    (∃ bundle, (persist buf args).2 = some bundle ∧
      bundle.snapshot_json =
        some { url := p.url, elements := some (els.map redactElem) }) ∧
    (∀ el ∈ els,
      lowerStr (el.input_type.getD ("")) ∈ sensitiveInputTypes →
      el.has_value_key = true →
      (redactElem el).value = none ∧ (redactElem el).value_redacted = some true) ∧
    (∀ el ∈ els,
      lowerStr (el.input_type.getD ("")) ∉ sensitiveInputTypes →
      redactElem el = el) := by
  refine ⟨?_, ?_, ?_⟩
  · refine ⟨(persist buf args).2.get ?_, ?_, ?_⟩
    · simp [persist, hpers]
    · simp [persist, hpers]
    · simp [persist, hpers, hsnap, hredact, hcb, redact_snapshot_defaults, hels]
  · intro el _ hsens hkey
    constructor <;> simp [redactElem, hsens, hkey]
  · intro el _ hsens
    simp [redactElem, hsens]

/-- C9 (witness): persisting the password/email/text payload writes the
redacted payload; the password element has its value nulled and
`value_redacted` set, the plain-text element is unchanged. -/
theorem persist_redacts_sensitive_values_witness :
    (∃ bundle, (persist fresh_buffer persist_args).2 = some bundle ∧
      bundle.snapshot_json = some { url := secret_payload.url,
                                    elements := some (secret_elements.map redactElem) }) ∧
    ((redactElem password_elem).value = none ∧
      (redactElem password_elem).value_redacted = some true) ∧
    redactElem text_elem = text_elem :=
  ⟨(persist_redacts_sensitive_values fresh_buffer persist_args secret_payload
      secret_elements rfl rfl rfl rfl rfl).1,
   (persist_redacts_sensitive_values fresh_buffer persist_args secret_payload
      secret_elements rfl rfl rfl rfl rfl).2.1 password_elem (by decide)
      (by decide) (by decide),
   (persist_redacts_sensitive_values fresh_buffer persist_args secret_payload
      secret_elements rfl rfl rfl rfl rfl).2.2 text_elem (by decide) (by decide)⟩

/-- Helper: python tuple `>` is irreflexive. -/
theorem tupLexGT_irrefl (x : Int × Int × Int × Int × Int) : ¬ tupLexGT x x := by
  obtain ⟨a, b, c, d, e⟩ := x
  unfold tupLexGT
  dsimp only
  omega

/-- Helper: if `x` does not beat `y` and `z` beats `y`, then `x` does not
beat `z` (the fold only ever replaces a kept element by a strictly better
one, so earlier losers stay beaten). -/
theorem tupLexGT_chain (x y z : Int × Int × Int × Int × Int)
    (hxy : ¬ tupLexGT x y) (hzy : tupLexGT z y) : ¬ tupLexGT x z := by
  obtain ⟨a1, a2, a3, a4, a5⟩ := x
  obtain ⟨b1, b2, b3, b4, b5⟩ := y
  obtain ⟨c1, c2, c3, c4, c5⟩ := z
  unfold tupLexGT at *
  dsimp only at *
  omega

/-- Helper: `qGT` is irreflexive. -/
theorem qGT_irrefl (e : MElem) : qGT e e = false := by
  simp [qGT]
  exact tupLexGT_irrefl _

/-- Helper: `qGT` chain lemma on elements. -/
theorem qGT_chain (x y z : MElem) (hxy : qGT x y = false) (hzy : qGT z y = true) :
    qGT x z = false := by
  simp [qGT] at *
  exact tupLexGT_chain _ _ _ hxy hzy

/-- Helper: updating key `k` makes its lookup the better of the old entry
and the new element (or the new element for a fresh key). -/
theorem updateBest_lookup_same (best : List (DKey × MElem)) (k : DKey) (e : MElem) :
    lookupBest (updateBest best k e) k =
      some (match lookupBest best k with
            | none => e
            | some prev => if qGT e prev then e else prev) := by
  induction best with
  | nil => simp [updateBest, lookupBest, List.find?]
  | cons hd t ih =>
    obtain ⟨k0, e0⟩ := hd
    by_cases hk : k = k0
    · subst hk
      simp [updateBest, lookupBest, List.find?]
    · have hk0 : ¬ (k0 = k) := fun h => hk h.symm
      simp only [updateBest, if_neg hk]
      simp only [lookupBest, List.find?, decide_eq_true_eq] at ih ⊢
      simp [hk0, ih]

/-- Helper: updating key `k` leaves every other lookup unchanged. -/
theorem updateBest_lookup_other (best : List (DKey × MElem)) (k : DKey)
    (e : MElem) (q : DKey) (hq : q ≠ k) :
    lookupBest (updateBest best k e) q = lookupBest best q := by
  induction best with
  | nil =>
    have : ¬ (k = q) := fun h => hq h.symm
    simp [updateBest, lookupBest, List.find?, this]
  | cons hd t ih =>
    obtain ⟨k0, e0⟩ := hd
    by_cases hk : k = k0
    · subst hk
      have hkq : ¬ (k = q) := fun h => hq h.symm
      simp [updateBest, lookupBest, List.find?, hkq]
    · simp only [updateBest, if_neg hk]
      simp only [lookupBest, List.find?, decide_eq_true_eq] at ih ⊢
      by_cases h0 : k0 = q
      · simp [h0]
      · simp [h0, ih]

/-- Helper: the key list after an update of a present key. -/
theorem updateBest_keys_mem (best : List (DKey × MElem)) (k : DKey) (e : MElem)
    (h : k ∈ best.map Prod.fst) :
    (updateBest best k e).map Prod.fst = best.map Prod.fst := by
  induction best with
  | nil => simp at h
  | cons hd t ih =>
    obtain ⟨k0, e0⟩ := hd
    by_cases hk : k = k0
    · subst hk
      simp [updateBest]
    · simp only [List.map_cons, List.mem_cons] at h
      rcases h with h | h

      · exact absurd h.symm (fun h2 => hk h2.symm)
      · simp [updateBest, if_neg hk, ih h]

/-- Helper: the key list after an update of a fresh key. -/
theorem updateBest_keys_new (best : List (DKey × MElem)) (k : DKey) (e : MElem)
    (h : k ∉ best.map Prod.fst) :
    (updateBest best k e).map Prod.fst = best.map Prod.fst ++ [k] := by
  induction best with
  | nil => simp [updateBest]
  | cons hd t ih =>
    obtain ⟨k0, e0⟩ := hd
    simp only [List.map_cons, List.mem_cons] at h
    push_neg at h
    simp [updateBest, if_neg h.1, ih h.2]

/-- Helper: under distinct keys, every association-list entry is its key's
lookup. -/
theorem entry_lookup (best : List (DKey × MElem))
    (hnd : (best.map Prod.fst).Nodup) :
    ∀ p ∈ best, lookupBest best p.1 = some p.2 := by
  induction best with
  | nil => intro p hp; simp at hp
  | cons hd t ih =>
    intro p hp
    obtain ⟨k0, e0⟩ := hd
    simp only [List.map_cons, List.nodup_cons] at hnd
    rcases List.mem_cons.mp hp with rfl | hp
    · simp [lookupBest, List.find?]
    · have hne : ¬ (k0 = p.1) := by
        intro h
        exact hnd.1 (h ▸ (List.mem_map_of_mem Prod.fst hp))
      simp only [lookupBest, List.find?, decide_eq_true_eq] at ih ⊢
      simp [hne]
      exact ih hnd.2 p hp

/-- Helper: the merge-loop invariant is preserved by one element step. -/
theorem mergeInv_step (processed : List MElem) (best : List (DKey × MElem))
    (el : MElem) (h : MergeInv processed best) :
    MergeInv (processed ++ [el]) (updateBest best (dedupe_key el) el) := by
  obtain ⟨hmain, hcomp, hnd⟩ := h
  refine ⟨?_, ?_, ?_⟩
  · intro k' e' hl
    by_cases hk : k' = dedupe_key el
    · subst hk
      rw [updateBest_lookup_same] at hl
      match hprev : lookupBest best (dedupe_key el) with
      | none =>
        rw [hprev] at hl
        simp only [Option.some.injEq] at hl
        subst hl
        refine ⟨rfl, List.mem_append_right _ (List.mem_singleton_self el), ?_⟩
        intro e2 he2 hke2
        rcases List.mem_append.mp he2 with he2 | he2
        · have := hcomp e2 he2
          rw [hke2, hprev] at this
          simp at this
        · rw [List.mem_singleton.mp he2]
          exact qGT_irrefl el
      | some prev =>
        rw [hprev] at hl
        obtain ⟨hkey_p, hmem_p, hmax_p⟩ := hmain _ prev hprev
        simp only [Option.some.injEq] at hl
        by_cases hq : qGT el prev = true
        · rw [if_pos hq] at hl
          subst hl
          refine ⟨rfl, List.mem_append_right _ (List.mem_singleton_self el), ?_⟩
          intro e2 he2 hke2
          rcases List.mem_append.mp he2 with he2 | he2
          · exact qGT_chain e2 prev el (hmax_p e2 he2 hke2) hq
          · rw [List.mem_singleton.mp he2]
            exact qGT_irrefl el
        · rw [if_neg hq] at hl
          subst hl
          refine ⟨hkey_p, List.mem_append_left _ hmem_p, ?_⟩
          intro e2 he2 hke2
          rcases List.mem_append.mp he2 with he2 | he2
          · exact hmax_p e2 he2 hke2
          · rw [List.mem_singleton.mp he2]
            exact Bool.eq_false_iff.mpr hq
    · rw [updateBest_lookup_other best _ el k' hk] at hl
      obtain ⟨hkey, hmem, hmax⟩ := hmain k' e' hl
      refine ⟨hkey, List.mem_append_left _ hmem, ?_⟩
      intro e2 he2 hke2
      rcases List.mem_append.mp he2 with he2 | he2
      · exact hmax e2 he2 hke2
      · rw [List.mem_singleton.mp he2] at hke2
        exact absurd hke2.symm hk
  · intro e he
    rcases List.mem_append.mp he with he | he
    · by_cases hk : dedupe_key e = dedupe_key el
      · rw [hk, updateBest_lookup_same]
        rfl
      · rw [updateBest_lookup_other best _ el _ hk]
        exact hcomp e he
    · rw [List.mem_singleton.mp he, updateBest_lookup_same]
      rfl
  · by_cases hk : dedupe_key el ∈ best.map Prod.fst
    · rw [updateBest_keys_mem best _ el hk]
      exact hnd
    · rw [updateBest_keys_new best _ el hk]
      simp [List.nodup_append, hnd, hk]

/-- Helper: the merge-loop invariant holds after scanning any stream. -/
theorem mergeScan_inv (els : List MElem) :
    ∀ (best : List (DKey × MElem)) (fs : List (DKey × Nat)) (idx : Nat)
      (processed : List MElem), MergeInv processed best →
      MergeInv (processed ++ els) (mergeScan els best fs idx).1 := by
  induction els with
  | nil => intro best fs idx processed h; simpa [mergeScan] using h
  | cons el rest ih =>
    intro best fs idx processed h
    have step := mergeInv_step processed best el h
    have := ih (updateBest best (dedupe_key el) el)
      (updateFirstSeen fs (dedupe_key el) idx) (idx + 1)
      (processed ++ [el]) step
    simpa [mergeScan, List.append_assoc] using this

/-- Helper: the scan starting from empty state satisfies the invariant. -/
theorem mergeScan_inv_nil (els : List MElem) :
    MergeInv els (mergeScan els [] [] 0).1 := by
  have h0 : MergeInv [] [] := by
    refine ⟨?_, ?_, ?_⟩
    · intro k e hl; simp [lookupBest, List.find?] at hl
    · intro e he; simp at he
    · simp
  simpa using mergeScan_inv els [] [] 0 [] h0

/-- Helper: the merge ordering is total. -/
theorem mergeLE_total (fs : List (DKey × Nat)) (a b : MElem) :
    mergeLE fs a b = true ∨ mergeLE fs b a = true := by
  unfold mergeLE
  rcases ha : a.doc_y with _ | d1 <;> rcases hb : b.doc_y with _ | d2 <;>
    simp <;> omega

/-- Helper: the merge ordering is transitive. -/
theorem mergeLE_trans (fs : List (DKey × Nat)) (a b c : MElem)
    (hab : mergeLE fs a b = true) (hbc : mergeLE fs b c = true) :
    mergeLE fs a c = true := by
  unfold mergeLE at *
  rcases ha : a.doc_y with _ | d1 <;> rcases hb : b.doc_y with _ | d2 <;>
    rcases hc : c.doc_y with _ | d3 <;>
    simp_all <;> omega

/-- C7: for every non-empty snapshot list, `merge_snapshots` succeeds and
the merged snapshot (i) drops the screenshot, (ii) contains only input
elements, each quality-maximal (by the lexicographic score
`(importance, has_href, has_text, has_name, has_doc_y)`) among all input
elements sharing its dedupe key, and (iii) is ordered by ascending `doc_y`
with ties broken by descending importance and elements without `doc_y`
last in first-seen order; moreover `_dedupe_key` follows the preference
order `href`, then `(role, name)`, then `(role, text[:120],
floor(doc_y/10))`, then `(role, floor(doc_y/10))`, then `id`. -/
theorem merge_snapshots_spec (snaps : List MSnapshot) (hne : snaps ≠ [])
    (ul : Option Int) :
    (∃ out, merge_snapshots snaps ul = some out ∧
      out.screenshot = none ∧
      (∀ e ∈ out.elements,
        e ∈ (snaps.map (fun s => s.elements)).flatten ∧
        ∀ e2 ∈ (snaps.map (fun s => s.elements)).flatten,
          dedupe_key e2 = dedupe_key e → qGT e2 e = false) ∧
      out.elements.Pairwise (fun x y =>
        mergeLE (mergeScan ((snaps.map (fun s => s.elements)).flatten) [] [] 0).2
          x y = true)) ∧
    (∀ el : MElem,
      (stripStr (el.href.getD ("")) ≠ "" →
        dedupe_key el = DKey.hrefKey (stripStr (el.href.getD ("")))) ∧
      (stripStr (el.href.getD ("")) = "" →
        normalizeWs (el.name.getD ("")) ≠ "" →
        dedupe_key el = DKey.roleName el.role (normalizeWs (el.name.getD ("")))) ∧
      (stripStr (el.href.getD ("")) = "" →
        normalizeWs (el.name.getD ("")) = "" →
        normalizeWs (el.text.getD ("")) ≠ "" →
        ∀ d, el.doc_y = some d →
        dedupe_key el = DKey.roleTextDocy el.role
          (takeStr 120 (normalizeWs (el.text.getD ("")))) (Int.fdiv d 10)) ∧
      (stripStr (el.href.getD ("")) = "" →
        normalizeWs (el.name.getD ("")) = "" →
        normalizeWs (el.text.getD ("")) = "" →
        ∀ d, el.doc_y = some d →
        dedupe_key el = DKey.roleDocy el.role (Int.fdiv d 10)) ∧
      (stripStr (el.href.getD ("")) = "" →
        normalizeWs (el.name.getD ("")) = "" →
        normalizeWs (el.text.getD ("")) = "" →
        el.doc_y = none →
        dedupe_key el = DKey.idKey el.id)) := by
  constructor
  · obtain ⟨base, rest, rfl⟩ := List.exists_cons_of_ne_nil hne
    have hinv := mergeScan_inv_nil (((base :: rest).map (fun s => s.elements)).flatten)
    set els := ((base :: rest).map (fun s => s.elements)).flatten with hels
    set st := mergeScan els [] [] 0 with hst
    set rel : MElem → MElem → Prop := fun x y => mergeLE st.2 x y = true with hrel
    haveI : IsTotal MElem rel := ⟨fun a b => mergeLE_total st.2 a b⟩
    haveI : IsTrans MElem rel := ⟨fun a b c => mergeLE_trans st.2 a b c⟩
    set merged0 := st.1.map (fun p => p.2) with hmerged0
    set sorted := List.insertionSort rel merged0 with hsorted
    set limited : List MElem :=
      (match ul with
       | none => sorted
       | some v => sorted.take (max 1 v).toNat) with hlimited
    have hsub : List.Sublist limited sorted := by
      rw [hlimited]
      cases ul with
      | none => exact List.Sublist.refl sorted
      | some v => exact List.take_sublist _ sorted
    refine ⟨{ url := base.url, elements := limited, screenshot := none },
      rfl, rfl, ?_, ?_⟩
    · intro e he
      have he1 : e ∈ sorted := hsub.subset he
      have he2 : e ∈ merged0 :=
        ((List.perm_insertionSort rel merged0).mem_iff).mp he1
      obtain ⟨p, hp, hpe⟩ := List.mem_map.mp he2
      obtain ⟨hmain, _, hnd⟩ := hinv
      have hlook := entry_lookup st.1 hnd p hp
      obtain ⟨hkey, hmem, hmax⟩ := hmain p.1 p.2 hlook
      subst hpe
      rw [← hkey] at hmax
      exact ⟨hmem, hmax⟩
    · have hs : List.Sorted rel sorted := List.sorted_insertionSort rel merged0
      exact List.Pairwise.sublist hsub hs
  · intro el
    refine ⟨?_, ?_, ?_, ?_, ?_⟩
    · intro h1
      simp [dedupe_key, h1]
    · intro h1 h2
      simp [dedupe_key, h1, h2]
    · intro h1 h2 h3 d hd
      simp [dedupe_key, h1, h2, h3, hd]
    · intro h1 h2 h3 d hd
      simp [dedupe_key, h1, h2, h3, hd]
    · intro h1 h2 h3 hd
      simp [dedupe_key, h1, h2, h3, hd]

/-- C7 (witness): merging the two sampled snapshots of the scenario keeps
one element per href — the higher-importance duplicate — ordered by
ascending `doc_y`, and drops the screenshot. -/
theorem merge_snapshots_spec_witness :
    (∃ out, merge_snapshots [merge_snap1, merge_snap2] none = some out ∧
      out.screenshot = none) ∧
    merge_snapshots [merge_snap1, merge_snap2] none =
      some { url := "https://example.com", elements := [elem_a2, elem_b, elem_c]
             screenshot := none } := by
  obtain ⟨⟨out, h1, h2, _, _⟩, _⟩ :=
    merge_snapshots_spec [merge_snap1, merge_snap2] (by simp) none
  exact ⟨⟨out, h1, h2⟩, by decide⟩

end Spec2Proof
